import Mathlib

/-!
# Read/write lock wrapper over the slim reader-writer primitive

A shallow embedding of `src/os_win/os_mtx_rw.c`.  Every C function of that file is a
Lean function of the same name over explicit state:

* the session (`WT_SESSION_IMPL`) carries the state of the collaborators the file
  calls into: the verbose tracing sink, the statistics counters and the allocator,
  together with an ordered log (`events`) of every collaborator call made;
* a lock (`WT_RWLOCK`) is passed by value and returned updated, which stands for the
  in-place update through the `WT_RWLOCK *` argument;
* a handle (`WT_RWLOCK **`) is an `Option WT_RWLOCK`, `none` being the null pointer.

The collaborators themselves (the tracing call, the counter increment, the allocator
and the operating system's slim reader-writer lock) are not part of the file; their
models below say so.
-/

namespace OsMtxRw

/-! ## Collaborators -/

/-- Modelled from the spec: the `Busy` result of a non-blocking exclusive acquire.
The C constant `EBUSY` comes from the platform header `errno.h`, which is not among
the sources; its usual value is taken. -/
def EBUSY : Int := 16

/-- Modelled from the spec: the platform reader-writer primitive (`SRWLOCK`), "a
multi-reader/single-writer lock".  Its state is the number of shared holds and
whether an exclusive hold is outstanding. -/
structure SRWLOCK where
  readers : Nat
  writer : Bool
deriving DecidableEq

/-- The calls the file makes on the primitive. -/
inductive SRWCall where
  | Initialize
  | AcquireShared
  | ReleaseShared
  | TryAcquireExclusive
  | AcquireExclusive
  | ReleaseExclusive
deriving DecidableEq

/-- The two statistics fields the file increments. -/
inductive StatField where
  | rwlock_read
  | rwlock_write
deriving DecidableEq

/-- Modelled from the spec: the `RWLock` entity (`name`, `primitive`,
`held_exclusive`).  The C declaration of `WT_RWLOCK` lives in `wt_internal.h` (not among
the sources); the three fields are the ones the file reads and writes: `name`,
`rwlock` (the primitive) and `exclusive_locked` (the mode flag, `held_exclusive` in
the specification). -/
structure WT_RWLOCK where
  name : String
  rwlock : SRWLOCK
  exclusive_locked : Nat
deriving DecidableEq

/-- One collaborator call, as recorded in the session's log. -/
inductive Event where
  /-- The call `__wt_verbose(session, WT_VERB_MUTEX, msg)` was made and returned `ret`. -/
  | verbose (msg : String) (ret : Int)
  /-- The macro `WT_STAT_FAST_CONN_INCR(session, fld)` was executed. -/
  | stat_incr (fld : StatField)
  /-- The call `__wt_calloc_def(session, 1, &rwlock)` was made and returned `ret`. -/
  | calloc (ret : Int)
  /-- A call on the lock's primitive. -/
  | srw (call : SRWCall)
  /-- The call `__wt_free(session, rwlock)` was made on the given structure. -/
  | free (rwlock : WT_RWLOCK)
deriving DecidableEq

/-- Modelled from the spec: the session, whose C declaration is not among the sources,
reduced to the collaborators the file reaches through it.

* `verbose_rets`: the results the tracing sink gives to the coming `__wt_verbose`
  calls, in order (`0` is success, and an exhausted list means success);
* `calloc_rets`: likewise for the coming `__wt_calloc_def` calls;
* `rwlock_read`, `rwlock_write`: the two connection statistics counters;
* `events`: every collaborator call made so far, oldest first. -/
structure WT_SESSION_IMPL where
  verbose_rets : List Int
  calloc_rets : List Int
  rwlock_read : Nat
  rwlock_write : Nat
  events : List Event
deriving DecidableEq

/-- Append one event to the session's log. -/
def WT_SESSION_IMPL.record (session : WT_SESSION_IMPL) (e : Event) : WT_SESSION_IMPL :=
  { session with events := session.events ++ [e] }

/-- The result the tracing sink gives to the next `__wt_verbose` call. -/
def WT_SESSION_IMPL.next_verbose (session : WT_SESSION_IMPL) : Int :=
  session.verbose_rets.headD 0

/-- The result the allocator gives to the next `__wt_calloc_def` call. -/
def WT_SESSION_IMPL.next_calloc (session : WT_SESSION_IMPL) : Int :=
  session.calloc_rets.headD 0

/-- Modelled from the spec: the tracing sink `Trace(category, message)`, which "fails
with IOError on sink failure".  `__wt_verbose` is defined outside the file; the
model consumes the next scripted result, logs the call with its message and returns
the result. -/
def __wt_verbose (session : WT_SESSION_IMPL) (msg : String) : Int × WT_SESSION_IMPL :=
  let ret := session.next_verbose
  (ret, { session with
            verbose_rets := session.verbose_rets.tail
            events := session.events ++ [Event.verbose msg ret] })

/-- Modelled from the spec: the metrics sink `IncrementCounter(counterId)`,
"fire-and-forget".  The macro `WT_STAT_FAST_CONN_INCR` is defined outside the file;
the model adds one to the named counter and logs the call. -/
def WT_STAT_FAST_CONN_INCR (session : WT_SESSION_IMPL) (fld : StatField) :
    WT_SESSION_IMPL :=
  match fld with
  | .rwlock_read =>
      { session with
          rwlock_read := session.rwlock_read + 1
          events := session.events ++ [Event.stat_incr .rwlock_read] }
  | .rwlock_write =>
      { session with
          rwlock_write := session.rwlock_write + 1
          events := session.events ++ [Event.stat_incr .rwlock_write] }

/-- Modelled from the spec: the all-zero lock structure a successful zeroed allocation
yields (a null name is the empty string). -/
def WT_RWLOCK.zeroed : WT_RWLOCK :=
  { name := "", rwlock := { readers := 0, writer := false }, exclusive_locked := 0 }

/-- Modelled from the spec: the allocator `AllocateZeroed(size) → pointer |
OutOfMemory`.  `__wt_calloc_def` is defined outside the file; the model consumes the
next scripted result, logs the call, and on success (`0`) the memory obtained is
`WT_RWLOCK.zeroed`. -/
def __wt_calloc_def (session : WT_SESSION_IMPL) : Int × WT_SESSION_IMPL :=
  let ret := session.next_calloc
  (ret, { session with
            calloc_rets := session.calloc_rets.tail
            events := session.events ++ [Event.calloc ret] })

/-- Modelled from the spec: the allocator's `Free(pointer)`.  `__wt_free` is defined
outside the file; the model logs the structure freed. -/
def __wt_free (session : WT_SESSION_IMPL) (rwlock : WT_RWLOCK) : WT_SESSION_IMPL :=
  session.record (Event.free rwlock)

/-- Modelled from the spec: "initializes the primitive to its unlocked state". -/
def InitializeSRWLock (session : WT_SESSION_IMPL) (_l : SRWLOCK) :
    WT_SESSION_IMPL × SRWLOCK :=
  (session.record (Event.srw .Initialize), { readers := 0, writer := false })

/-- Modelled from the spec: shared acquire, which "blocks the calling thread until a
shared hold can be granted (i.e., no exclusive holder; readers are not blocked by
other readers)".  The call is logged; `none` says that it does not return in this
state. -/
def AcquireSRWLockShared (session : WT_SESSION_IMPL) (l : SRWLOCK) :
    WT_SESSION_IMPL × Option SRWLOCK :=
  (session.record (Event.srw .AcquireShared),
    if l.writer then none else some { l with readers := l.readers + 1 })

/-- Modelled from the spec: shared release, which "decrements reader count
(primitive-internal)". -/
def ReleaseSRWLockShared (session : WT_SESSION_IMPL) (l : SRWLOCK) :
    WT_SESSION_IMPL × SRWLOCK :=
  (session.record (Event.srw .ReleaseShared), { l with readers := l.readers - 1 })

/-- Modelled from the spec: non-blocking exclusive acquire, which "fails immediately
if unavailable", that is when the lock is "currently held by any reader or writer".
The result is the primitive's boolean: nonzero when the exclusive hold was taken,
`0` when it was not. -/
def TryAcquireSRWLockExclusive (session : WT_SESSION_IMPL) (l : SRWLOCK) :
    Int × WT_SESSION_IMPL × SRWLOCK :=
  if l.writer = false ∧ l.readers = 0 then
    (1, session.record (Event.srw .TryAcquireExclusive), { l with writer := true })
  else
    (0, session.record (Event.srw .TryAcquireExclusive), l)

/-- Modelled from the spec: blocking exclusive acquire, which "blocks until no
readers or writer hold the lock".  The call is logged; `none` says that it does not
return in this state. -/
def AcquireSRWLockExclusive (session : WT_SESSION_IMPL) (l : SRWLOCK) :
    WT_SESSION_IMPL × Option SRWLOCK :=
  (session.record (Event.srw .AcquireExclusive),
    if l.writer = false ∧ l.readers = 0 then some { l with writer := true } else none)

/-- Modelled from the spec: exclusive release (`ExclusiveHeld → Unlocked`): the
exclusive hold is dropped; the reader count is not touched. -/
def ReleaseSRWLockExclusive (session : WT_SESSION_IMPL) (l : SRWLOCK) :
    WT_SESSION_IMPL × SRWLOCK :=
  (session.record (Event.srw .ReleaseExclusive), { l with writer := false })

/-! ## The functions of `os_mtx_rw.c` -/

/-- What a call that may wait on the primitive comes to: it returned `ret`, or it is
still waiting inside the primitive's acquire.  Both carry the session and the lock as
they are at that point. -/
inductive Outcome where
  | returned (ret : Int) (session : WT_SESSION_IMPL) (rwlock : WT_RWLOCK)
  | blocked (session : WT_SESSION_IMPL) (rwlock : WT_RWLOCK)
deriving DecidableEq

/-- The session of an outcome. -/
def Outcome.session : Outcome → WT_SESSION_IMPL
  | .returned _ s _ => s
  | .blocked s _ => s

/-- The lock of an outcome. -/
def Outcome.rwlock : Outcome → WT_RWLOCK
  | .returned _ _ l => l
  | .blocked _ l => l

/-- The return value of an outcome, when the call returned. -/
def Outcome.ret : Outcome → Option Int
  | .returned r _ _ => some r
  | .blocked _ _ => none

/-- Function `__wt_rwlock_alloc`: allocate and initialize a read/write lock.  The result is
the return value, the session and the caller's handle `*rwlockp`. -/
def __wt_rwlock_alloc (session : WT_SESSION_IMPL) (rwlockp : Option WT_RWLOCK)
    (name : String) : Int × WT_SESSION_IMPL × Option WT_RWLOCK :=
  match __wt_verbose session ("rwlock: alloc " ++ name) with
  | (ret, session) =>
    if ret ≠ 0 then (ret, session, rwlockp) else
    match __wt_calloc_def session with
    | (ret, session) =>
      if ret ≠ 0 then (ret, session, rwlockp) else
      let rwlock := WT_RWLOCK.zeroed
      let rwlock := { rwlock with name := name }
      match InitializeSRWLock session rwlock.rwlock with
      | (session, l) =>
        let rwlock := { rwlock with rwlock := l }
        (0, session, some rwlock)

/-- Function `__wt_readlock`: get a shared lock. -/
def __wt_readlock (session : WT_SESSION_IMPL) (rwlock : WT_RWLOCK) : Outcome :=
  match __wt_verbose session ("rwlock: readlock " ++ rwlock.name) with
  | (ret, session) =>
    if ret ≠ 0 then .returned ret session rwlock else
    let session := WT_STAT_FAST_CONN_INCR session .rwlock_read
    match AcquireSRWLockShared session rwlock.rwlock with
    | (session, none) => .blocked session rwlock
    | (session, some l) => .returned 0 session { rwlock with rwlock := l }

/-- Function `__readunlock` (static, called from nowhere in the file): release a shared
lock. -/
def __readunlock (session : WT_SESSION_IMPL) (rwlock : WT_RWLOCK) :
    Int × WT_SESSION_IMPL × WT_RWLOCK :=
  match __wt_verbose session ("rwlock: read unlock " ++ rwlock.name) with
  | (ret, session) =>
    if ret ≠ 0 then (ret, session, rwlock) else
    match ReleaseSRWLockShared session rwlock.rwlock with
    | (session, l) => (0, session, { rwlock with rwlock := l })

/-- Function `__wt_try_writelock`: try to get an exclusive lock, fail immediately if
unavailable. -/
def __wt_try_writelock (session : WT_SESSION_IMPL) (rwlock : WT_RWLOCK) :
    Int × WT_SESSION_IMPL × WT_RWLOCK :=
  match __wt_verbose session ("rwlock: try_writelock " ++ rwlock.name) with
  | (ret, session) =>
    if ret ≠ 0 then (ret, session, rwlock) else
    let session := WT_STAT_FAST_CONN_INCR session .rwlock_write
    match TryAcquireSRWLockExclusive session rwlock.rwlock with
    | (ret, session, l) =>
      let rwlock := { rwlock with rwlock := l }
      if ret = 0 then (EBUSY, session, rwlock) else
      (0, session, { rwlock with exclusive_locked := 1 })

/-- Function `__wt_writelock`: wait to get an exclusive lock. -/
def __wt_writelock (session : WT_SESSION_IMPL) (rwlock : WT_RWLOCK) : Outcome :=
  match __wt_verbose session ("rwlock: writelock " ++ rwlock.name) with
  | (ret, session) =>
    if ret ≠ 0 then .returned ret session rwlock else
    let session := WT_STAT_FAST_CONN_INCR session .rwlock_write
    match AcquireSRWLockExclusive session rwlock.rwlock with
    | (session, none) => .blocked session rwlock
    | (session, some l) =>
      let rwlock := { rwlock with rwlock := l }
      .returned 0 session { rwlock with exclusive_locked := 1 }

/-- Function `__writeunlock` (static, called from nowhere in the file): release an exclusive
lock. -/
def __writeunlock (session : WT_SESSION_IMPL) (rwlock : WT_RWLOCK) :
    Int × WT_SESSION_IMPL × WT_RWLOCK :=
  match __wt_verbose session ("rwlock: writeunlock " ++ rwlock.name) with
  | (ret, session) =>
    if ret ≠ 0 then (ret, session, rwlock) else
    let rwlock := { rwlock with exclusive_locked := 0 }
    match ReleaseSRWLockExclusive session rwlock.rwlock with
    | (session, l) => (0, session, { rwlock with rwlock := l })

/-- Function `__wt_rwunlock`: release a read/write lock. -/
def __wt_rwunlock (session : WT_SESSION_IMPL) (rwlock : WT_RWLOCK) :
    Int × WT_SESSION_IMPL × WT_RWLOCK :=
  if rwlock.exclusive_locked = 0 then
    match ReleaseSRWLockShared session rwlock.rwlock with
    | (session, l) => (0, session, { rwlock with rwlock := l })
  else
    match ReleaseSRWLockExclusive session rwlock.rwlock with
    | (session, l) => (0, session, { rwlock with rwlock := l })

/-- Function `__wt_rwlock_destroy`: destroy a read/write lock.  The result is the return
value, the session and the caller's handle `*rwlockp`. -/
def __wt_rwlock_destroy (session : WT_SESSION_IMPL) (rwlockp : Option WT_RWLOCK) :
    Int × WT_SESSION_IMPL × Option WT_RWLOCK :=
  match rwlockp with
  | none => (0, session, none)
  | some rwlock =>
    let rwlockp : Option WT_RWLOCK := none
    match __wt_verbose session ("rwlock: destroy " ++ rwlock.name) with
    | (ret, session) =>
      if ret ≠ 0 then (ret, session, rwlockp) else
      let session := __wt_free session rwlock
      (0, session, rwlockp)

/-! ## Reading the log -/

/-- The message of a tracing call, for a log entry that is one. -/
def Event.trace? : Event → Option String
  | .verbose msg _ => some msg
  | _ => none

/-- The primitive call of a log entry that is one. -/
def Event.srw? : Event → Option SRWCall
  | .srw call => some call
  | _ => none

/-- The structure freed by a log entry that is a free. -/
def Event.free? : Event → Option WT_RWLOCK
  | .free rwlock => some rwlock
  | _ => none

/-- The messages handed to the tracing sink, oldest first. -/
def traces (events : List Event) : List String :=
  events.filterMap Event.trace?

/-- The calls made on the primitive, oldest first. -/
def srw_calls (events : List Event) : List SRWCall :=
  events.filterMap Event.srw?

/-- The structures handed to the allocator's free, oldest first. -/
def frees (events : List Event) : List WT_RWLOCK :=
  events.filterMap Event.free?

/-! ## Concrete sessions and locks -/

/-- A session whose tracing sink and allocator succeed, with zero counters and an
empty log. -/
def session_ok : WT_SESSION_IMPL :=
  { verbose_rets := [], calloc_rets := [], rwlock_read := 0, rwlock_write := 0,
    events := [] }

/-- A session whose tracing sink fails the next call with error `5`. -/
def session_trace_fails : WT_SESSION_IMPL :=
  { session_ok with verbose_rets := [5] }

/-- A session whose allocator fails the next call with error `12`. -/
def session_calloc_fails : WT_SESSION_IMPL :=
  { session_ok with calloc_rets := [12] }

/-- The lock a successful `__wt_rwlock_alloc` of name "cache-lock" yields: free, flag
clear. -/
def lock_free : WT_RWLOCK :=
  { name := "cache-lock", rwlock := { readers := 0, writer := false },
    exclusive_locked := 0 }

/-- The lock "cache-lock" with one shared hold outstanding. -/
def lock_shared : WT_RWLOCK :=
  { name := "cache-lock", rwlock := { readers := 1, writer := false },
    exclusive_locked := 0 }

/-- The lock "cache-lock" as `__wt_writelock` leaves it: exclusive hold outstanding,
flag set. -/
def lock_exclusive : WT_RWLOCK :=
  { name := "cache-lock", rwlock := { readers := 0, writer := true },
    exclusive_locked := 1 }

/-! ## Unlock -/

/-- C1 (the code at the failing input): on the lock `__wt_writelock` leaves behind
(flag set, exclusive hold outstanding), `__wt_rwunlock` returns `0` and makes exactly
one call on the primitive, the exclusive release, but the flag is still `1` after the
call; the static `__writeunlock` on the same input does clear it. -/
theorem rwunlock_leaves_exclusive_flag_set :
    __wt_writelock session_ok lock_free
        = .returned 0 (__wt_writelock session_ok lock_free).session lock_exclusive ∧
    (__wt_rwunlock session_ok lock_exclusive).1 = 0 ∧
    srw_calls (__wt_rwunlock session_ok lock_exclusive).2.1.events
        = [SRWCall.ReleaseExclusive] ∧
    (__wt_rwunlock session_ok lock_exclusive).2.2.exclusive_locked = 1 ∧
    (__writeunlock session_ok lock_exclusive).2.2.exclusive_locked = 0 := by
  decide

/-- C2 (the code at the failing input): from the freshly allocated lock "cache-lock",
the client sequence AcquireExclusive; Unlock; AcquireShared; Unlock has every call
return `0`, yet the flag is `1` after the first Unlock and stays `1`, the second
Unlock makes an exclusive release instead of a shared one, and the shared hold is
still outstanding at the end. -/
theorem flag_stays_set_after_exclusive_unlock :
    (__wt_rwlock_alloc session_ok none "cache-lock").2.2 = some lock_free ∧
    (let o1 := __wt_writelock session_ok lock_free
     let r2 := __wt_rwunlock o1.session o1.rwlock
     let o3 := __wt_readlock r2.2.1 r2.2.2
     let r4 := __wt_rwunlock o3.session o3.rwlock
     o1.ret = some 0 ∧ o1.rwlock.exclusive_locked = 1 ∧
     r2.1 = 0 ∧ r2.2.2.exclusive_locked = 1 ∧
     o3.ret = some 0 ∧ o3.rwlock.exclusive_locked = 1 ∧
     r4.1 = 0 ∧ r4.2.2.exclusive_locked = 1 ∧
     srw_calls r4.2.1.events
       = [SRWCall.AcquireExclusive, SRWCall.ReleaseExclusive,
          SRWCall.AcquireShared, SRWCall.ReleaseExclusive] ∧
     r4.2.2.rwlock = { readers := 1, writer := false }) := by
  decide

/-- C7 (the code at the failing input): `__wt_rwunlock` hands nothing to the tracing
sink, neither on a lock held shared nor on a lock held exclusive: its only
collaborator call is the release on the primitive.  The static `__readunlock` and
`__writeunlock` on the same inputs each emit one record before the release. -/
theorem rwunlock_emits_no_trace_record :
    (__wt_rwunlock session_ok lock_shared).2.1.events
        = [Event.srw SRWCall.ReleaseShared] ∧
    (__wt_rwunlock session_ok lock_exclusive).2.1.events
        = [Event.srw SRWCall.ReleaseExclusive] ∧
    traces (__wt_rwunlock session_ok lock_shared).2.1.events = [] ∧
    traces (__wt_rwunlock session_ok lock_exclusive).2.1.events = [] ∧
    (__readunlock session_ok lock_shared).2.1.events
        = [Event.verbose "rwlock: read unlock cache-lock" 0,
           Event.srw SRWCall.ReleaseShared] ∧
    (__writeunlock session_ok lock_exclusive).2.1.events
        = [Event.verbose "rwlock: writeunlock cache-lock" 0,
           Event.srw SRWCall.ReleaseExclusive] := by
  decide

/-! ## Non-blocking exclusive acquire -/

/-- C3: when its tracing call succeeds, `__wt_try_writelock` returns `EBUSY` with the
lock (flag included) exactly as before if a shared or exclusive hold is outstanding,
and returns `0` with the flag set to `1` and the exclusive hold taken if the lock is
free; it returns `EBUSY` exactly when the primitive's try-exclusive returned `0`. -/
theorem try_writelock_busy_or_exclusive (session : WT_SESSION_IMPL) (rwlock : WT_RWLOCK)
    (htrace : session.next_verbose = 0) :
    let r := __wt_try_writelock session rwlock
    let prim := TryAcquireSRWLockExclusive
      (WT_STAT_FAST_CONN_INCR
        (__wt_verbose session ("rwlock: try_writelock " ++ rwlock.name)).2 .rwlock_write)
      rwlock.rwlock
    ((rwlock.rwlock.writer = true ∨ 0 < rwlock.rwlock.readers) →
        prim.1 = 0 ∧ r.1 = EBUSY ∧ r.2.2 = rwlock) ∧
    ((rwlock.rwlock.writer = false ∧ rwlock.rwlock.readers = 0) →
        prim.1 ≠ 0 ∧ r.1 = 0 ∧ r.2.2.exclusive_locked = 1 ∧
        r.2.2.rwlock = { readers := 0, writer := true } ∧ r.2.2.name = rwlock.name) ∧
    (r.1 = EBUSY ↔ prim.1 = 0) := by
  obtain ⟨name, ⟨readers, writer⟩, flag⟩ := rwlock
  simp only [__wt_try_writelock, __wt_verbose, htrace, TryAcquireSRWLockExclusive,
    WT_STAT_FAST_CONN_INCR, EBUSY]
  cases writer <;> cases readers <;> simp

/-- C3 witness: with the tracing sink succeeding, the try on the lock with one shared
hold is busy and the try on the free lock succeeds. -/
theorem try_writelock_busy_or_exclusive_witness :
    session_ok.next_verbose = 0 ∧
    (lock_shared.rwlock.writer = true ∨ 0 < lock_shared.rwlock.readers) ∧
    (__wt_try_writelock session_ok lock_shared).1 = EBUSY ∧
    (__wt_try_writelock session_ok lock_shared).2.2 = lock_shared ∧
    (lock_free.rwlock.writer = false ∧ lock_free.rwlock.readers = 0) ∧
    (__wt_try_writelock session_ok lock_free).1 = 0 ∧
    (__wt_try_writelock session_ok lock_free).2.2.exclusive_locked = 1 :=
  ⟨by decide, by decide,
   ((try_writelock_busy_or_exclusive session_ok lock_shared (by decide)).1
      (by decide)).2.1,
   ((try_writelock_busy_or_exclusive session_ok lock_shared (by decide)).1
      (by decide)).2.2,
   by decide,
   ((try_writelock_busy_or_exclusive session_ok lock_free (by decide)).2.1
      (by decide)).2.1,
   ((try_writelock_busy_or_exclusive session_ok lock_free (by decide)).2.1
      (by decide)).2.2.1⟩

/-! ## Destroy -/

/-- C4: `__wt_rwlock_destroy` on a null handle, in every session state and whatever the
tracing sink would answer, returns `0`, leaves the session as it was (no trace record,
no call logged, nothing freed) and leaves the handle null; on a non-null handle with the
tracing call succeeding, the first call returns `0` and nulls the handle, the second
call on that handle returns `0` and changes nothing, and over the two calls the
structure is handed to the allocator's free exactly once. -/
theorem destroy_twice_frees_once (session : WT_SESSION_IMPL) (rwlock : WT_RWLOCK) :
    (__wt_rwlock_destroy session none = (0, session, none) ∧
      (__wt_rwlock_destroy session none).1 = 0 ∧
      (__wt_rwlock_destroy session none).2.2 = none ∧
      (__wt_rwlock_destroy session none).2.1.events = session.events ∧
      traces (__wt_rwlock_destroy session none).2.1.events = traces session.events ∧
      frees (__wt_rwlock_destroy session none).2.1.events = frees session.events) ∧
    (session.next_verbose = 0 →
      let r1 := __wt_rwlock_destroy session (some rwlock)
      let r2 := __wt_rwlock_destroy r1.2.1 r1.2.2
      r1.1 = 0 ∧ r1.2.2 = none ∧
      frees r1.2.1.events = frees session.events ++ [rwlock] ∧
      r2 = (0, r1.2.1, none) ∧
      frees r2.2.1.events = frees session.events ++ [rwlock]) := by
  refine ⟨by simp [__wt_rwlock_destroy], ?_⟩
  intro htrace
  simp [__wt_rwlock_destroy, __wt_verbose, htrace, __wt_free, WT_SESSION_IMPL.record,
    frees, Event.free?]

/-- C4 witness: destroying a null handle in a session whose tracing sink would fail
(error `5`) returns `0` and changes nothing; destroying the free lock "cache-lock"
twice with the tracing sink succeeding frees it once. -/
theorem destroy_twice_frees_once_witness :
    session_trace_fails.next_verbose ≠ 0 ∧
    __wt_rwlock_destroy session_trace_fails none = (0, session_trace_fails, none) ∧
    traces (__wt_rwlock_destroy session_trace_fails none).2.1.events
        = traces session_trace_fails.events ∧
    session_ok.next_verbose = 0 ∧
    (__wt_rwlock_destroy session_ok (some lock_free)).1 = 0 ∧
    (__wt_rwlock_destroy session_ok (some lock_free)).2.2 = none ∧
    __wt_rwlock_destroy (__wt_rwlock_destroy session_ok (some lock_free)).2.1
      (__wt_rwlock_destroy session_ok (some lock_free)).2.2
        = (0, (__wt_rwlock_destroy session_ok (some lock_free)).2.1, none) ∧
    frees (__wt_rwlock_destroy (__wt_rwlock_destroy session_ok (some lock_free)).2.1
      (__wt_rwlock_destroy session_ok (some lock_free)).2.2).2.1.events
        = frees session_ok.events ++ [lock_free] :=
  ⟨by decide,
   (destroy_twice_frees_once session_trace_fails lock_free).1.1,
   (destroy_twice_frees_once session_trace_fails lock_free).1.2.2.2.2.1,
   by decide,
   ((destroy_twice_frees_once session_ok lock_free).2 (by decide)).1,
   ((destroy_twice_frees_once session_ok lock_free).2 (by decide)).2.1,
   ((destroy_twice_frees_once session_ok lock_free).2 (by decide)).2.2.2.1,
   ((destroy_twice_frees_once session_ok lock_free).2 (by decide)).2.2.2.2⟩

/-- C10: `__wt_rwlock_destroy` on a non-null handle always leaves the handle null and
always hands one record, "rwlock: destroy" with the lock's name, to the tracing sink.
If the tracing call succeeds the result is `0` and the structure is freed; if it fails
with `e` the result is `e`, the tracing call is the only collaborator call made
(nothing is freed) and the handle is null, so that a later destroy through that handle,
in whatever session state, returns `0` and does nothing. -/
theorem destroy_nulls_handle_first (session : WT_SESSION_IMPL) (rwlock : WT_RWLOCK) :
    let r := __wt_rwlock_destroy session (some rwlock)
    r.2.2 = none ∧
    traces r.2.1.events = traces session.events ++ ["rwlock: destroy " ++ rwlock.name] ∧
    (session.next_verbose = 0 →
      r.1 = 0 ∧ frees r.2.1.events = frees session.events ++ [rwlock]) ∧
    (session.next_verbose ≠ 0 →
      r.1 = session.next_verbose ∧
      r.2.1.events = session.events ++
        [Event.verbose ("rwlock: destroy " ++ rwlock.name) session.next_verbose] ∧
      frees r.2.1.events = frees session.events ∧
      ∀ later : WT_SESSION_IMPL, __wt_rwlock_destroy later r.2.2 = (0, later, none)) := by
  by_cases h : session.next_verbose = 0 <;>
    simp [__wt_rwlock_destroy, __wt_verbose, h, __wt_free, WT_SESSION_IMPL.record,
      frees, traces, Event.free?, Event.trace?]

/-- C10 witness: destroying the free lock "cache-lock" with the tracing sink succeeding,
and with the tracing sink failing with error `5`. -/
theorem destroy_nulls_handle_first_witness :
    session_ok.next_verbose = 0 ∧
    (__wt_rwlock_destroy session_ok (some lock_free)).1 = 0 ∧
    frees (__wt_rwlock_destroy session_ok (some lock_free)).2.1.events
        = frees session_ok.events ++ [lock_free] ∧
    session_trace_fails.next_verbose ≠ 0 ∧
    (__wt_rwlock_destroy session_trace_fails (some lock_free)).1
        = session_trace_fails.next_verbose ∧
    frees (__wt_rwlock_destroy session_trace_fails (some lock_free)).2.1.events
        = frees session_trace_fails.events :=
  ⟨by decide,
   ((destroy_nulls_handle_first session_ok lock_free).2.2.1 (by decide)).1,
   ((destroy_nulls_handle_first session_ok lock_free).2.2.1 (by decide)).2,
   by decide,
   ((destroy_nulls_handle_first session_trace_fails lock_free).2.2.2 (by decide)).1,
   ((destroy_nulls_handle_first session_trace_fails lock_free).2.2.2
      (by decide)).2.2.1⟩

/-! ## Allocate -/

/-- C5: `__wt_rwlock_alloc` with the tracing call and the zeroed allocation both
succeeding returns `0`, makes exactly one call on the primitive, its initialisation,
after the tracing call and the allocation, and stores in the handle a lock with the flag
`0`, the given name and the primitive unlocked (no shared hold, no exclusive hold);
with the tracing call failing, or the tracing call succeeding and the allocation
failing, it returns that error, the handle is what it was before the call, and no call
is made on the primitive (the failing call is the last collaborator call made). -/
theorem alloc_stores_fresh_lock_or_nothing (session : WT_SESSION_IMPL)
    (rwlockp : Option WT_RWLOCK) (name : String) :
    let r := __wt_rwlock_alloc session rwlockp name
    (session.next_verbose = 0 → session.next_calloc = 0 →
      r.1 = 0 ∧
      r.2.2 = some { name := name, rwlock := { readers := 0, writer := false },
                     exclusive_locked := 0 } ∧
      r.2.1.events = session.events ++
        [Event.verbose ("rwlock: alloc " ++ name) 0, Event.calloc 0,
         Event.srw SRWCall.Initialize] ∧
      srw_calls r.2.1.events = srw_calls session.events ++ [SRWCall.Initialize]) ∧
    (session.next_verbose ≠ 0 →
      r.1 = session.next_verbose ∧ r.2.2 = rwlockp ∧
      r.2.1.events = session.events ++
        [Event.verbose ("rwlock: alloc " ++ name) session.next_verbose] ∧
      srw_calls r.2.1.events = srw_calls session.events) ∧
    (session.next_verbose = 0 → session.next_calloc ≠ 0 →
      r.1 = session.next_calloc ∧ r.2.2 = rwlockp ∧
      r.2.1.events = session.events ++
        [Event.verbose ("rwlock: alloc " ++ name) 0,
         Event.calloc session.next_calloc] ∧
      srw_calls r.2.1.events = srw_calls session.events) := by
  by_cases h : session.next_verbose = 0 <;> by_cases hc : session.next_calloc = 0 <;>
    simp [__wt_rwlock_alloc, __wt_verbose, __wt_calloc_def, InitializeSRWLock,
      WT_RWLOCK.zeroed, WT_SESSION_IMPL.next_calloc, WT_SESSION_IMPL.record,
      srw_calls, Event.srw?, h, hc] <;>
    simp_all [WT_SESSION_IMPL.next_calloc, Event.srw?, List.filterMap_cons]

/-- C5 witness: allocating "cache-lock" into a null handle with both collaborators
succeeding, and into a handle holding a lock with the tracing sink failing (error `5`)
and with the allocator failing (error `12`). -/
theorem alloc_stores_fresh_lock_or_nothing_witness :
    (session_ok.next_verbose = 0 ∧ session_ok.next_calloc = 0) ∧
    (__wt_rwlock_alloc session_ok none "cache-lock").1 = 0 ∧
    (__wt_rwlock_alloc session_ok none "cache-lock").2.2 = some lock_free ∧
    srw_calls (__wt_rwlock_alloc session_ok none "cache-lock").2.1.events
        = srw_calls session_ok.events ++ [SRWCall.Initialize] ∧
    session_trace_fails.next_verbose ≠ 0 ∧
    (__wt_rwlock_alloc session_trace_fails (some lock_shared) "cache-lock").1
        = session_trace_fails.next_verbose ∧
    (__wt_rwlock_alloc session_trace_fails (some lock_shared) "cache-lock").2.2
        = some lock_shared ∧
    srw_calls (__wt_rwlock_alloc session_trace_fails (some lock_shared)
      "cache-lock").2.1.events = srw_calls session_trace_fails.events ∧
    (session_calloc_fails.next_verbose = 0 ∧ session_calloc_fails.next_calloc ≠ 0) ∧
    (__wt_rwlock_alloc session_calloc_fails (some lock_shared) "cache-lock").1
        = session_calloc_fails.next_calloc ∧
    (__wt_rwlock_alloc session_calloc_fails (some lock_shared) "cache-lock").2.2
        = some lock_shared ∧
    srw_calls (__wt_rwlock_alloc session_calloc_fails (some lock_shared)
      "cache-lock").2.1.events = srw_calls session_calloc_fails.events :=
  ⟨by decide,
   ((alloc_stores_fresh_lock_or_nothing session_ok none "cache-lock").1
      (by decide) (by decide)).1,
   ((alloc_stores_fresh_lock_or_nothing session_ok none "cache-lock").1
      (by decide) (by decide)).2.1,
   ((alloc_stores_fresh_lock_or_nothing session_ok none "cache-lock").1
      (by decide) (by decide)).2.2.2,
   by decide,
   ((alloc_stores_fresh_lock_or_nothing session_trace_fails (some lock_shared)
      "cache-lock").2.1 (by decide)).1,
   ((alloc_stores_fresh_lock_or_nothing session_trace_fails (some lock_shared)
      "cache-lock").2.1 (by decide)).2.1,
   ((alloc_stores_fresh_lock_or_nothing session_trace_fails (some lock_shared)
      "cache-lock").2.1 (by decide)).2.2.2,
   by decide,
   ((alloc_stores_fresh_lock_or_nothing session_calloc_fails (some lock_shared)
      "cache-lock").2.2 (by decide) (by decide)).1,
   ((alloc_stores_fresh_lock_or_nothing session_calloc_fails (some lock_shared)
      "cache-lock").2.2 (by decide) (by decide)).2.1,
   ((alloc_stores_fresh_lock_or_nothing session_calloc_fails (some lock_shared)
      "cache-lock").2.2 (by decide) (by decide)).2.2.2⟩

/-! ## Acquisition: tracing failure, counters, frame -/

/-- C6: for `__wt_readlock`, `__wt_try_writelock` and `__wt_writelock`, when the
tracing call fails with `e` the operation returns `e`, the calls made on the primitive
are those made before and the lock (flag included) is as before; when the tracing call
succeeds the collaborator calls of the operation are, in this order, the tracing call,
the counter increment and then the acquire on the primitive. -/
theorem acquire_aborts_on_trace_failure (session : WT_SESSION_IMPL) (rwlock : WT_RWLOCK) :
    (session.next_verbose ≠ 0 →
      ((__wt_readlock session rwlock).ret = some session.next_verbose ∧
        srw_calls (__wt_readlock session rwlock).session.events
          = srw_calls session.events ∧
        (__wt_readlock session rwlock).rwlock = rwlock) ∧
      ((__wt_try_writelock session rwlock).1 = session.next_verbose ∧
        srw_calls (__wt_try_writelock session rwlock).2.1.events
          = srw_calls session.events ∧
        (__wt_try_writelock session rwlock).2.2 = rwlock) ∧
      ((__wt_writelock session rwlock).ret = some session.next_verbose ∧
        srw_calls (__wt_writelock session rwlock).session.events
          = srw_calls session.events ∧
        (__wt_writelock session rwlock).rwlock = rwlock)) ∧
    (session.next_verbose = 0 →
      (__wt_readlock session rwlock).session.events = session.events ++
        [Event.verbose ("rwlock: readlock " ++ rwlock.name) 0,
         Event.stat_incr StatField.rwlock_read, Event.srw SRWCall.AcquireShared] ∧
      (__wt_try_writelock session rwlock).2.1.events = session.events ++
        [Event.verbose ("rwlock: try_writelock " ++ rwlock.name) 0,
         Event.stat_incr StatField.rwlock_write, Event.srw SRWCall.TryAcquireExclusive] ∧
      (__wt_writelock session rwlock).session.events = session.events ++
        [Event.verbose ("rwlock: writelock " ++ rwlock.name) 0,
         Event.stat_incr StatField.rwlock_write, Event.srw SRWCall.AcquireExclusive]) := by
  obtain ⟨name, ⟨readers, writer⟩, flag⟩ := rwlock
  by_cases h : session.next_verbose = 0
  · cases writer <;> cases readers <;>
      simp [__wt_readlock, __wt_try_writelock, __wt_writelock, __wt_verbose, h,
        WT_STAT_FAST_CONN_INCR, AcquireSRWLockShared, TryAcquireSRWLockExclusive,
        AcquireSRWLockExclusive, WT_SESSION_IMPL.record, Outcome.session]
  · simp [__wt_readlock, __wt_try_writelock, __wt_writelock, __wt_verbose, h,
      Outcome.session, Outcome.rwlock, Outcome.ret, srw_calls, Event.srw?]

/-- C6 witness: the three acquisitions on the free lock "cache-lock" with the tracing
sink failing with error `5`, and the read lock with the tracing sink succeeding. -/
theorem acquire_aborts_on_trace_failure_witness :
    session_trace_fails.next_verbose ≠ 0 ∧
    (__wt_readlock session_trace_fails lock_free).ret
        = some session_trace_fails.next_verbose ∧
    (__wt_try_writelock session_trace_fails lock_free).2.2 = lock_free ∧
    srw_calls (__wt_writelock session_trace_fails lock_free).session.events
        = srw_calls session_trace_fails.events ∧
    session_ok.next_verbose = 0 ∧
    (__wt_readlock session_ok lock_free).session.events = session_ok.events ++
        [Event.verbose ("rwlock: readlock " ++ lock_free.name) 0,
         Event.stat_incr StatField.rwlock_read, Event.srw SRWCall.AcquireShared] :=
  ⟨by decide,
   ((acquire_aborts_on_trace_failure session_trace_fails lock_free).1
      (by decide)).1.1,
   ((acquire_aborts_on_trace_failure session_trace_fails lock_free).1
      (by decide)).2.1.2.2,
   ((acquire_aborts_on_trace_failure session_trace_fails lock_free).1
      (by decide)).2.2.2.1,
   by decide,
   ((acquire_aborts_on_trace_failure session_ok lock_free).2 (by decide)).1⟩

/-- C8: when the tracing call succeeds, `__wt_try_writelock` (whose result is then `0`
or `EBUSY`) and `__wt_writelock` add exactly one to `rwlock_write` and leave
`rwlock_read` as it was, and `__wt_readlock` adds exactly one to `rwlock_read` and
leaves `rwlock_write` as it was; `__wt_rwlock_alloc`, `__wt_rwunlock` and
`__wt_rwlock_destroy` change neither counter, whatever the collaborators answer. -/
theorem acquisition_counters (session : WT_SESSION_IMPL) (rwlock : WT_RWLOCK)
    (rwlockp : Option WT_RWLOCK) (name : String) :
    (session.next_verbose = 0 →
      (((__wt_try_writelock session rwlock).1 = 0 ∨
          (__wt_try_writelock session rwlock).1 = EBUSY) ∧
        (__wt_try_writelock session rwlock).2.1.rwlock_write = session.rwlock_write + 1 ∧
        (__wt_try_writelock session rwlock).2.1.rwlock_read = session.rwlock_read) ∧
      ((__wt_writelock session rwlock).session.rwlock_write = session.rwlock_write + 1 ∧
        (__wt_writelock session rwlock).session.rwlock_read = session.rwlock_read) ∧
      ((__wt_readlock session rwlock).session.rwlock_read = session.rwlock_read + 1 ∧
        (__wt_readlock session rwlock).session.rwlock_write = session.rwlock_write)) ∧
    ((__wt_rwlock_alloc session rwlockp name).2.1.rwlock_read = session.rwlock_read ∧
      (__wt_rwlock_alloc session rwlockp name).2.1.rwlock_write = session.rwlock_write) ∧
    ((__wt_rwunlock session rwlock).2.1.rwlock_read = session.rwlock_read ∧
      (__wt_rwunlock session rwlock).2.1.rwlock_write = session.rwlock_write) ∧
    ((__wt_rwlock_destroy session rwlockp).2.1.rwlock_read = session.rwlock_read ∧
      (__wt_rwlock_destroy session rwlockp).2.1.rwlock_write = session.rwlock_write) := by
  obtain ⟨lname, ⟨readers, writer⟩, flag⟩ := rwlock
  refine ⟨?_, ?_, ?_, ?_⟩
  · intro h
    cases writer <;> cases readers <;>
      simp [__wt_readlock, __wt_try_writelock, __wt_writelock, __wt_verbose, h,
        WT_STAT_FAST_CONN_INCR, AcquireSRWLockShared, TryAcquireSRWLockExclusive,
        AcquireSRWLockExclusive, WT_SESSION_IMPL.record, Outcome.session]
  · by_cases h : session.next_verbose = 0
    · simp only [__wt_rwlock_alloc, __wt_verbose, __wt_calloc_def, InitializeSRWLock,
        WT_SESSION_IMPL.record, h]
      split_ifs <;> simp
    · simp [__wt_rwlock_alloc, __wt_verbose, h]
  · by_cases hf : flag = 0 <;>
      simp [__wt_rwunlock, ReleaseSRWLockShared, ReleaseSRWLockExclusive,
        WT_SESSION_IMPL.record, hf]
  · cases rwlockp with
    | none => simp [__wt_rwlock_destroy]
    | some l =>
      by_cases h : session.next_verbose = 0 <;>
        simp [__wt_rwlock_destroy, __wt_verbose, __wt_free, WT_SESSION_IMPL.record, h]

/-- C8 witness: the counters after a busy try, a successful try, a write lock and a
read lock, tracing sink succeeding. -/
theorem acquisition_counters_witness :
    session_ok.next_verbose = 0 ∧
    (__wt_try_writelock session_ok lock_shared).2.1.rwlock_write
        = session_ok.rwlock_write + 1 ∧
    (__wt_try_writelock session_ok lock_free).2.1.rwlock_write
        = session_ok.rwlock_write + 1 ∧
    (__wt_writelock session_ok lock_free).session.rwlock_write
        = session_ok.rwlock_write + 1 ∧
    (__wt_readlock session_ok lock_shared).session.rwlock_read
        = session_ok.rwlock_read + 1 :=
  ⟨by decide,
   ((acquisition_counters session_ok lock_shared none "").1 (by decide)).1.2.1,
   ((acquisition_counters session_ok lock_free none "").1 (by decide)).1.2.1,
   ((acquisition_counters session_ok lock_free none "").1 (by decide)).2.1.1,
   ((acquisition_counters session_ok lock_shared none "").1 (by decide)).2.2.1⟩

/-- C9: `__wt_readlock` leaves `exclusive_locked` and `name` as they were in every
state and whatever the tracing sink answers.  With the tracing call succeeding and no
exclusive hold outstanding it returns `0`; whenever it returns `0`, exactly one call,
the shared acquire, has been added to the calls on the primitive and the primitive has
one more shared hold; with the tracing call failing it returns that error and the lock
is as before. -/
theorem readlock_keeps_flag_and_name (session : WT_SESSION_IMPL) (rwlock : WT_RWLOCK) :
    let o := __wt_readlock session rwlock
    o.rwlock.exclusive_locked = rwlock.exclusive_locked ∧
    o.rwlock.name = rwlock.name ∧
    (session.next_verbose = 0 → rwlock.rwlock.writer = false → o.ret = some 0) ∧
    (o.ret = some 0 →
      srw_calls o.session.events = srw_calls session.events ++ [SRWCall.AcquireShared] ∧
      o.rwlock.rwlock
        = { readers := rwlock.rwlock.readers + 1, writer := rwlock.rwlock.writer }) ∧
    (session.next_verbose ≠ 0 →
      o.ret = some session.next_verbose ∧ o.rwlock = rwlock) := by
  obtain ⟨name, ⟨readers, writer⟩, flag⟩ := rwlock
  by_cases h : session.next_verbose = 0 <;> cases writer <;>
    simp [__wt_readlock, __wt_verbose, h, WT_STAT_FAST_CONN_INCR, AcquireSRWLockShared,
      WT_SESSION_IMPL.record, Outcome.session, Outcome.rwlock, Outcome.ret, srw_calls,
      Event.srw?]

/-- C9 witness: a read lock on the lock with one shared hold, tracing sink succeeding,
and a read lock with the tracing sink failing with error `5`. -/
theorem readlock_keeps_flag_and_name_witness :
    (session_ok.next_verbose = 0 ∧ lock_shared.rwlock.writer = false) ∧
    (__wt_readlock session_ok lock_shared).ret = some 0 ∧
    srw_calls (__wt_readlock session_ok lock_shared).session.events
        = srw_calls session_ok.events ++ [SRWCall.AcquireShared] ∧
    session_trace_fails.next_verbose ≠ 0 ∧
    (__wt_readlock session_trace_fails lock_exclusive).rwlock = lock_exclusive :=
  ⟨by decide,
   (readlock_keeps_flag_and_name session_ok lock_shared).2.2.1 (by decide) (by decide),
   ((readlock_keeps_flag_and_name session_ok lock_shared).2.2.2.1 (by decide)).1,
   by decide,
   ((readlock_keeps_flag_and_name session_trace_fails lock_exclusive).2.2.2.2
      (by decide)).2⟩

/-! ## General facts used when reading the results above -/

/-- What `__wt_rwunlock` does in every state: it returns `0`, writes neither the flag
nor the name, hands nothing to the tracing sink, and makes exactly one call on the
primitive, the shared release when the flag is `0` and the exclusive release
otherwise. -/
theorem rwunlock_behaviour (session : WT_SESSION_IMPL) (rwlock : WT_RWLOCK) :
    let r := __wt_rwunlock session rwlock
    r.1 = 0 ∧
    r.2.2.exclusive_locked = rwlock.exclusive_locked ∧
    r.2.2.name = rwlock.name ∧
    traces r.2.1.events = traces session.events ∧
    srw_calls r.2.1.events = srw_calls session.events ++
      [if rwlock.exclusive_locked = 0 then SRWCall.ReleaseShared
       else SRWCall.ReleaseExclusive] := by
  by_cases hf : rwlock.exclusive_locked = 0 <;>
    simp [__wt_rwunlock, ReleaseSRWLockShared, ReleaseSRWLockExclusive,
      WT_SESSION_IMPL.record, traces, srw_calls, Event.trace?, Event.srw?, hf]

/-- The five public operations other than `__wt_rwunlock` hand exactly one record to
the tracing sink, made of the operation's label and the lock's name, in every state
and whatever the collaborators answer (destroy: on a non-null handle). -/
theorem other_operations_trace_once (session : WT_SESSION_IMPL) (rwlock : WT_RWLOCK)
    (rwlockp : Option WT_RWLOCK) (name : String) :
    traces (__wt_rwlock_alloc session rwlockp name).2.1.events
      = traces session.events ++ ["rwlock: alloc " ++ name] ∧
    traces (__wt_readlock session rwlock).session.events
      = traces session.events ++ ["rwlock: readlock " ++ rwlock.name] ∧
    traces (__wt_try_writelock session rwlock).2.1.events
      = traces session.events ++ ["rwlock: try_writelock " ++ rwlock.name] ∧
    traces (__wt_writelock session rwlock).session.events
      = traces session.events ++ ["rwlock: writelock " ++ rwlock.name] ∧
    traces (__wt_rwlock_destroy session (some rwlock)).2.1.events
      = traces session.events ++ ["rwlock: destroy " ++ rwlock.name] := by
  obtain ⟨lname, ⟨readers, writer⟩, flag⟩ := rwlock
  refine ⟨?_, ?_, ?_, ?_, ?_⟩
  · by_cases h : session.next_verbose = 0
    · simp only [__wt_rwlock_alloc, __wt_verbose, __wt_calloc_def, InitializeSRWLock,
        WT_SESSION_IMPL.record, h]
      split_ifs <;> simp [traces, Event.trace?]
    · simp [__wt_rwlock_alloc, __wt_verbose, h, traces, Event.trace?]
  · by_cases h : session.next_verbose = 0 <;> cases writer <;>
      simp [__wt_readlock, __wt_verbose, h, WT_STAT_FAST_CONN_INCR,
        AcquireSRWLockShared, WT_SESSION_IMPL.record, Outcome.session, traces,
        Event.trace?]
  · by_cases h : session.next_verbose = 0 <;> cases writer <;> cases readers <;>
      simp [__wt_try_writelock, __wt_verbose, h, WT_STAT_FAST_CONN_INCR,
        TryAcquireSRWLockExclusive, WT_SESSION_IMPL.record, traces, Event.trace?]
  · by_cases h : session.next_verbose = 0 <;> cases writer <;> cases readers <;>
      simp [__wt_writelock, __wt_verbose, h, WT_STAT_FAST_CONN_INCR,
        AcquireSRWLockExclusive, WT_SESSION_IMPL.record, Outcome.session, traces,
        Event.trace?]
  · by_cases h : session.next_verbose = 0 <;>
      simp [__wt_rwlock_destroy, __wt_verbose, h, __wt_free, WT_SESSION_IMPL.record,
        traces, Event.trace?]

end OsMtxRw
